import Mathlib

/-
Verification of the anti-cheat heuristics of the treasure-hunt services:
shallow embeddings of the trust scorer, location verification service,
pattern analyzer, fraud detector and anomaly detector, with theorems about
their scoring behaviour.  Python floats are modelled by real numbers,
timestamps by reals (seconds) or integers (days), dictionaries with known
keys by structures whose fields carry the read-time defaults, and mutable
per-instance dictionaries by explicit state values.
-/

open scoped Classical

namespace AntiCheat

/-- Arithmetic mean of a list of reals (np.mean); `0` for the empty list
(every use in the sources is guarded by a non-emptiness check). -/
noncomputable def listMean (l : List ℝ) : ℝ := l.sum / l.length

/-- Population variance of a list of reals (np.var, and the explicit
variance loops in the sources); `0/0 = 0` covers the empty list. -/
noncomputable def listVariance (l : List ℝ) : ℝ :=
  ((l.map (fun x => (x - listMean l) ^ 2)).sum) / l.length

/-- Population standard deviation of a list of reals (np.std). -/
noncomputable def listStd (l : List ℝ) : ℝ := Real.sqrt (listVariance l)

/-- A location sample carrying coordinates in degrees and a timestamp in
seconds, as the movement-history dictionaries do. -/
structure TimedLoc where
  lat : ℝ
  lon : ℝ
  timestamp : ℝ

/-- Python truthiness of an optional float: `None` and `0.0` are falsy. -/
def truthy (o : Option ℝ) : Prop := ∃ x, o = some x ∧ x ≠ 0

namespace TrustScorer

/-- Player-activity record read by `TrustScorer`, with each field already
carrying the default substituted by the corresponding `.get` call. -/
structure PlayerData where
  player_id : Option String
  solving_times : List ℝ
  success_pattern : List ℕ
  movement_consistency : ℝ
  success_rate : ℝ
  account_age_days : ℝ
  achievements : ℝ
  total_play_time : ℝ
  collaboration_score : ℝ
  communication_quality : ℝ
  reports_received : ℝ
  positive_feedback : ℝ
  device_consistency : ℝ
  connection_stability : ℝ
  location_consistency : ℝ
  usual_playing_hours : Bool
  session_length_consistency : ℝ
  play_frequency_consistency : ℝ

/-- Location slice of the verification-results dictionary read by
`TrustScorer._calculate_location_trust`, defaults filled in. -/
structure VerificationResults where
  gps_trust : ℝ
  movement_plausibility : ℝ
  spoofing_indicators : List String

/-- Embedding of `TrustScorer._calculate_behavior_consistency`. -/
noncomputable def calculate_behavior_consistency (p : PlayerData) : ℝ :=
  let timeInd : List ℝ :=
    if 2 < p.solving_times.length then
      [max 0 (1 - (if 0 < listMean p.solving_times then
          listStd p.solving_times / listMean p.solving_times else 1))]
    else []
  let succInd : List ℝ :=
    if p.success_pattern ≠ [] then
      [1 - ((p.success_pattern.dedup.length : ℝ) / p.success_pattern.length)]
    else []
  let inds := timeInd ++ succInd ++ [p.movement_consistency]
  if inds ≠ [] then listMean inds else 0.5

/-- Embedding of `TrustScorer._calculate_location_trust`. -/
noncomputable def calculate_location_trust (v : VerificationResults) : ℝ :=
  listMean [v.gps_trust, v.movement_plausibility,
    max 0.1 (1 - (v.spoofing_indicators.length : ℝ) * 0.2)]

/-- Embedding of `TrustScorer._calculate_historical_performance`. -/
noncomputable def calculate_historical_performance (p : PlayerData) : ℝ :=
  listMean [p.success_rate,
    0.7 + min 0.3 (p.account_age_days / 100),
    min 1 (p.achievements / (p.total_play_time / 3600))]

/-- Embedding of `TrustScorer._calculate_social_behavior`. -/
noncomputable def calculate_social_behavior (p : PlayerData) : ℝ :=
  listMean [p.collaboration_score, p.communication_quality,
    1 - min 0.5 (p.reports_received * 0.1),
    0.8 + min 0.2 (p.positive_feedback * 0.05)]

/-- Embedding of `TrustScorer._calculate_device_reputation`. -/
noncomputable def calculate_device_reputation (p : PlayerData) : ℝ :=
  listMean [p.device_consistency, p.connection_stability, p.location_consistency]

/-- Embedding of `TrustScorer._calculate_temporal_consistency`. -/
noncomputable def calculate_temporal_consistency (p : PlayerData) : ℝ :=
  listMean [if p.usual_playing_hours then 0.9 else 0.5,
    p.session_length_consistency, p.play_frequency_consistency]

/-- The fixed component weights of `TrustScorer.__init__`, in dictionary
insertion order. -/
noncomputable def trust_weights : List (String × ℝ) :=
  [("behavior_consistency", 0.25), ("location_verification", 0.20),
   ("historical_performance", 0.20), ("social_behavior", 0.15),
   ("device_reputation", 0.10), ("temporal_patterns", 0.10)]

/-- Lookup of a component score by name, mirroring the
`component_scores` dictionary built by `calculate_trust_score`. -/
noncomputable def componentScore (p : PlayerData) (v : VerificationResults) :
    String → ℝ := fun c =>
  if c = "behavior_consistency" then calculate_behavior_consistency p
  else if c = "location_verification" then calculate_location_trust v
  else if c = "historical_performance" then calculate_historical_performance p
  else if c = "social_behavior" then calculate_social_behavior p
  else if c = "device_reputation" then calculate_device_reputation p
  else if c = "temporal_patterns" then calculate_temporal_consistency p
  else 0

/-- The weighted-sum loop of `calculate_trust_score` over
`trust_weights.items()`. -/
noncomputable def weightedTrustScore (p : PlayerData) (v : VerificationResults) : ℝ :=
  trust_weights.foldl (fun acc cw => acc + componentScore p v cw.1 * cw.2) 0

/-- The per-process `trust_history` dictionary: player id to
(timestamp, stored score).  Timestamps are modelled at day granularity,
so the `(now - last_update).days` of the source is `now - last`. -/
def TrustHistory := String → Option (ℤ × ℝ)

/-- Embedding of `TrustScorer._apply_trust_decay`.  Returns the score and
the updated history.  An absent or empty `player_id` is falsy in Python
and leaves everything unchanged. -/
noncomputable def apply_trust_decay (hist : TrustHistory) (player_id : Option String)
    (now : ℤ) (current_score : ℝ) : ℝ × TrustHistory :=
  match player_id with
  | none => (current_score, hist)
  | some pid =>
    if pid = "" then (current_score, hist)
    else
      match hist pid with
      | some (last, _prior) =>
        let days_passed := now - last
        let decayed := current_score * (0.95 : ℝ) ^ days_passed
        (decayed, fun q => if q = pid then some (now, decayed) else hist q)
      | none =>
        (current_score, fun q => if q = pid then some (now, current_score) else hist q)

/-- Embedding of `TrustScorer._determine_trust_level`. -/
noncomputable def determine_trust_level (trust_score : ℝ) : String :=
  if 0.9 ≤ trust_score then "excellent"
  else if 0.8 ≤ trust_score then "high"
  else if 0.7 ≤ trust_score then "good"
  else if 0.6 ≤ trust_score then "fair"
  else if 0.4 ≤ trust_score then "low"
  else "restricted"

/-- Embedding of `TrustScorer._calculate_confidence` on the list of the
six component scores. -/
noncomputable def calculate_confidence (scores : List ℝ) : ℝ :=
  if scores.length < 2 then 0.5
  else
    let consistency := 1 - min 1 (listVariance scores * 5)
    let data_sufficiency := min 1 ((scores.length : ℝ) / 6)
    (consistency + data_sufficiency) / 2

/-- Embedding of `TrustScorer._generate_trust_recommendations`. -/
noncomputable def generate_trust_recommendations (score : String → ℝ) : List String :=
  (if score "behavior_consistency" < 0.7 then ["Improve behavior consistency"] else []) ++
  (if score "location_verification" < 0.6 then ["Verify location accuracy"] else []) ++
  (if score "social_behavior" < 0.5 then ["Engage in positive social interactions"] else []) ++
  (if score "device_reputation" < 0.6 then ["Maintain consistent device usage"] else [])

/-- Result dictionary of `TrustScorer.calculate_trust_score`; the
component scores are kept as the list of values in insertion order. -/
structure TrustResult where
  trust_score : ℝ
  trust_level : String
  component_list : List ℝ
  confidence : ℝ
  recommendations : List String

/-- Embedding of `TrustScorer.calculate_trust_score`, threaded through the
`trust_history` state and the current time in days. -/
noncomputable def calculate_trust_score (hist : TrustHistory) (now : ℤ)
    (p : PlayerData) (v : VerificationResults) : TrustResult × TrustHistory :=
  let score := componentScore p v
  let scores := [score "behavior_consistency", score "location_verification",
    score "historical_performance", score "social_behavior",
    score "device_reputation", score "temporal_patterns"]
  let ts := weightedTrustScore p v
  let dec := apply_trust_decay hist p.player_id now ts
  (⟨max 0 (min 1 dec.1), determine_trust_level dec.1, scores,
    calculate_confidence scores, generate_trust_recommendations score⟩, dec.2)

end TrustScorer

namespace LocationVerification

/-- The gps sub-dictionary of the location data, fields carrying the
read-time defaults of `_verify_gps_location` / `_check_altitude_consistency`
/ `_verify_ip_geolocation`. -/
structure GpsData where
  accuracy : ℝ
  satellite_count : ℝ
  signal_strength : ℝ
  is_mock_provider : Bool
  altitude : Option ℝ
  latitude : Option ℝ
  longitude : Option ℝ

/-- The defaulted gps record produced by `location_data.get('gps', {})`
when the key is absent or empty. -/
def GpsData.default : GpsData := ⟨0, 0, -1, false, none, none, none⟩

/-- One entry of the wifi `networks` list. -/
structure WifiNetwork where
  signal_strength : ℝ
  ssid : String

/-- One entry of the cell `towers` list. -/
structure CellTower where
  signal_strength : ℝ
  provider : String

/-- The ip sub-dictionary with the defaults of `_verify_ip_geolocation`. -/
structure IpData where
  address : String
  is_vpn : Bool
  is_proxy : Bool
  latitude : Option ℝ
  longitude : Option ℝ

/-- The full location-data dictionary.  `gps = none` models an absent or
empty (hence falsy) gps sub-dictionary. -/
structure LocationData where
  gps : Option GpsData
  wifi_networks : List WifiNetwork
  cell_towers : List CellTower
  bluetooth_devices : List String
  ip : IpData

/-- The verdict of one verification method: the boolean flag and the
confidence; issue strings, which never feed back into any score, are
omitted. -/
structure MethodResult where
  verified : Prop
  confidence : ℝ

/-- Embedding of `_check_altitude_consistency`; a missing or zero altitude
is falsy and fails the check. -/
noncomputable def check_altitude_consistency (g : GpsData) : Prop :=
  truthy g.altitude ∧ -100 ≤ g.altitude.getD 0 ∧ g.altitude.getD 0 ≤ 9000

/-- Embedding of `LocationVerificationService._verify_gps_location`. -/
noncomputable def verify_gps_location (ld : LocationData) : MethodResult :=
  let g := ld.gps.getD GpsData.default
  let c1 : ℝ := if g.accuracy < 10 then 0.4 else if g.accuracy < 50 then 0.3
    else if g.accuracy < 100 then 0.2 else 0.1
  let c2 : ℝ := if 10 ≤ g.satellite_count then 0.3
    else if 5 ≤ g.satellite_count then 0.2 else 0.1
  let c3 : ℝ := if -80 < g.signal_strength then 0.2
    else if -100 < g.signal_strength then 0.1 else 0
  let c4 := c1 + c2 + c3
  let c5 := if g.is_mock_provider then c4 * 0.1 else c4
  let c6 := if check_altitude_consistency g then c5 + 0.1 else c5
  ⟨0.6 ≤ c6, min 1 c6⟩

/-- The known-ssid allowlist of `_identify_known_networks`. -/
def known_ssids : List String := ["HomeNetwork", "OfficeWiFi", "PublicWiFi"]

/-- Embedding of `_identify_known_networks`. -/
def identify_known_networks (networks : List WifiNetwork) : List String :=
  (networks.map (·.ssid)).filter (fun s => decide (s ∈ known_ssids))

/-- Embedding of `_check_network_stability` (a placeholder returning True). -/
def check_network_stability : Prop := True

/-- Embedding of `LocationVerificationService._verify_wifi_fingerprint`. -/
noncomputable def verify_wifi_fingerprint (ld : LocationData) : MethodResult :=
  let networks := ld.wifi_networks
  if networks = [] then ⟨False, 0⟩
  else
    let n := networks.length
    let c1 : ℝ := if 5 ≤ n then 0.4 else if 3 ≤ n then 0.3
      else if 1 ≤ n then 0.2 else 0.1
    let avg := (networks.map (·.signal_strength)).sum / (n : ℝ)
    let c2 : ℝ := if -60 < avg then 0.3 else if -70 < avg then 0.2
      else if -80 < avg then 0.1 else 0
    let c3 : ℝ := if identify_known_networks networks ≠ [] then 0.2 else 0
    let c4 : ℝ := if check_network_stability then 0.1 else 0
    let c := c1 + c2 + c3 + c4
    ⟨0.5 ≤ c, min 1 c⟩

/-- Embedding of `_check_tower_consistency`: at least two towers from at
most two distinct providers. -/
noncomputable def check_tower_consistency (towers : List CellTower) : Prop :=
  2 ≤ towers.length ∧ ((towers.map (·.provider)).dedup).length ≤ 2

/-- Embedding of `LocationVerificationService._verify_cell_towers`. -/
noncomputable def verify_cell_towers (ld : LocationData) : MethodResult :=
  let towers := ld.cell_towers
  if towers = [] then ⟨False, 0⟩
  else
    let c1 : ℝ := if 3 ≤ towers.length then 0.5
      else if 2 ≤ towers.length then 0.3 else 0.1
    let c2 : ℝ := (towers.map (fun t =>
      if -80 < t.signal_strength then (0.1 : ℝ)
      else if -90 < t.signal_strength then 0.05 else 0)).sum
    let c3 : ℝ := if check_tower_consistency towers then 0.2 else 0
    let c := min 0.8 (c1 + c2 + c3)
    ⟨0.4 ≤ c, c⟩

/-- Embedding of `LocationVerificationService._verify_bluetooth_beacons`. -/
noncomputable def verify_bluetooth_beacons (ld : LocationData) : MethodResult :=
  let devices := ld.bluetooth_devices
  if devices = [] then ⟨False, 0⟩
  else
    let c : ℝ := if 3 ≤ devices.length then 0.6
      else if 2 ≤ devices.length then 0.4 else 0.2
    ⟨0.4 ≤ c, c⟩

/-- Degrees to radians, as math.radians. -/
noncomputable def radiansOf (x : ℝ) : ℝ := x * Real.pi / 180

/-- Embedding of `LocationVerificationService._calculate_distance`: the
haversine distance in metres between two coordinate pairs in degrees. -/
noncomputable def calculate_distance (la1 lo1 la2 lo2 : ℝ) : ℝ :=
  let lat1 := radiansOf la1
  let lon1 := radiansOf lo1
  let lat2 := radiansOf la2
  let lon2 := radiansOf lo2
  let dlat := lat2 - lat1
  let dlon := lon2 - lon1
  let a := Real.sin (dlat / 2) ^ 2 +
    Real.cos lat1 * Real.cos lat2 * Real.sin (dlon / 2) ^ 2
  let c := 2 * Real.arcsin (Real.sqrt a)
  6371000 * c

/-- Embedding of `LocationVerificationService._verify_ip_geolocation`.
The gps comparison step runs only when the gps dictionary is truthy and
all four coordinates are truthy (Python `and` on floats). -/
noncomputable def verify_ip_geolocation (ld : LocationData) : MethodResult :=
  let ip := ld.ip
  if ip.address = "" then ⟨False, 0⟩
  else
    let c1 : ℝ := if ip.is_vpn = true ∨ ip.is_proxy = true then 0.1 else 0.5
    let c2 : ℝ :=
      match ld.gps with
      | none => c1
      | some g =>
        if truthy ip.latitude ∧ truthy ip.longitude ∧
            truthy g.latitude ∧ truthy g.longitude then
          let d := calculate_distance (ip.latitude.getD 0) (ip.longitude.getD 0)
            (g.latitude.getD 0) (g.longitude.getD 0)
          if d < 50000 then c1 + 0.3 else c1 * 0.5
        else c1
    ⟨0.4 ≤ c2, min 1 c2⟩

/-- The static method weights of `comprehensive_location_verification`. -/
noncomputable def method_weight : String → ℝ := fun m =>
  if m = "gps" then 0.4 else if m = "wifi" then 0.25 else if m = "cell" then 0.2
  else if m = "bluetooth" then 0.1 else if m = "ip" then 0.05 else 0

/-- The five verification methods in the insertion order of
`self.verification_methods`, paired with their names. -/
noncomputable def method_results (ld : LocationData) : List (String × MethodResult) :=
  [("gps", verify_gps_location ld), ("wifi", verify_wifi_fingerprint ld),
   ("cell", verify_cell_towers ld), ("bluetooth", verify_bluetooth_beacons ld),
   ("ip", verify_ip_geolocation ld)]

/-- Result of `comprehensive_location_verification`; the per-method result
dictionary, risk factors and recommendations do not affect the claimed
fields and are omitted. -/
structure VerificationOutcome where
  verified : Prop
  overall_confidence : ℝ

/-- Embedding of
`LocationVerificationService.comprehensive_location_verification`: the
accumulation loop over the five methods followed by the 0.7 threshold. -/
noncomputable def comprehensive_location_verification (ld : LocationData) :
    VerificationOutcome :=
  let overall := (method_results ld).foldl
    (fun acc mr => acc + mr.2.confidence * method_weight mr.1) 0
  ⟨0.7 ≤ overall, overall⟩

end LocationVerification

namespace PatternAnalyzer

/-- The location_data sub-dictionary read by the pattern analyzer. -/
structure LocationInfo where
  movement_history : List TimedLoc
  gps_issues : List String
  is_mock_provider : Bool

/-- The interaction_patterns sub-dictionary; `perfect_linearity` is the
flag inside its `movement_patterns` entry. -/
structure InteractionPatterns where
  click_intervals : List ℝ
  perfect_linearity : Bool

/-- The communication_patterns sub-dictionary. -/
structure CommunicationPatterns where
  message_frequency : ℝ
  solution_sharing : ℝ

/-- Player record read by `PatternAnalyzer`, defaults filled in. -/
structure PlayerData where
  player_id : Option String
  solving_times : List ℝ
  success_rate : ℝ
  location_data : LocationInfo
  device_fingerprint : Option String
  ip_address : Option String
  interaction_patterns : InteractionPatterns
  movement_efficiency : ℝ
  social_connections : List String
  communication_patterns : CommunicationPatterns

/-- Game context read by `PatternAnalyzer`. -/
structure GameContext where
  similar_devices : List String
  accounts_per_ip : String → ℕ
  similar_players : List String
  coordinated_actions : List String

/-- The `context.get('accounts_per_ip', {}).get(ip_address, 0)` lookup;
an absent ip address yields the default 0. -/
def accountsPerIp (gc : GameContext) (ip : Option String) : ℕ :=
  match ip with
  | none => 0
  | some a => gc.accounts_per_ip a

/-- Embedding of `PatternAnalyzer._calculate_distance` — the simplified
rectangular distance in metres, not the haversine formula. -/
noncomputable def calculate_distance_pa (l1 l2 : TimedLoc) : ℝ :=
  (|l1.lat - l2.lat| + |l1.lon - l2.lon|) * 111000

/-- Embedding of `PatternAnalyzer._detect_impossible_movements`: counts
consecutive pairs with positive time delta whose speed exceeds 100 m/s. -/
noncomputable def detect_impossible_movements (h : List TimedLoc) : ℕ :=
  (h.zip h.tail).countP (fun pr => decide
    (0 < pr.2.timestamp - pr.1.timestamp ∧
      100 < calculate_distance_pa pr.1 pr.2 / (pr.2.timestamp - pr.1.timestamp)))

/-- Embedding of `PatternAnalyzer._analyze_speed_hacking` (evidence
strings omitted; they never feed back into scores). -/
noncomputable def analyze_speed_hacking (p : PlayerData) : ℝ :=
  let s1 : ℝ := if p.solving_times ≠ [] then
      (if listMean p.solving_times < 20 then 0.8
       else if listMean p.solving_times < 40 then 0.5 else 0)
    else 0
  let s2 : ℝ := if 0.95 < p.success_rate ∧ 5 < p.solving_times.length then 0.3 else 0
  min 1 (s1 + s2)

/-- Embedding of `PatternAnalyzer._analyze_location_spoofing`. -/
noncomputable def analyze_location_spoofing (p : PlayerData) : ℝ :=
  let s1 : ℝ := if detect_impossible_movements p.location_data.movement_history ≠ 0
    then 0.6 else 0
  let s2 : ℝ := if p.location_data.gps_issues ≠ [] then 0.4 else 0
  let s3 : ℝ := if p.location_data.is_mock_provider then 0.8 else 0
  min 1 (s1 + s2 + s3)

/-- Embedding of `PatternAnalyzer._calculate_behavioral_similarity`. -/
noncomputable def calculate_behavioral_similarity (gc : GameContext) : ℝ :=
  if gc.similar_players = [] then 0
  else min 0.9 ((gc.similar_players.length : ℝ) * 0.1)

/-- Embedding of `PatternAnalyzer._analyze_multiple_accounts`.  A missing
device fingerprint (`None`) is never a member of the similar-devices list. -/
noncomputable def analyze_multiple_accounts (p : PlayerData) (gc : GameContext) : ℝ :=
  let s1 : ℝ := if ∃ d, p.device_fingerprint = some d ∧ d ∈ gc.similar_devices
    then 0.5 else 0
  let s2 : ℝ := if 3 < accountsPerIp gc p.ip_address then 0.4 else 0
  let s3 : ℝ := if 0.8 < calculate_behavioral_similarity gc then 0.3 else 0
  min 1 (s1 + s2 + s3)

/-- Embedding of `PatternAnalyzer._calculate_timing_consistency`. -/
noncomputable def calculate_timing_consistency (l : List ℝ) : ℝ :=
  if l.length < 2 then 0
  else if listMean l = 0 then 0
  else max 0 (1 - listStd l / listMean l)

/-- Embedding of `PatternAnalyzer._has_mechanical_patterns`. -/
noncomputable def has_mechanical_patterns (ip : InteractionPatterns) : Prop :=
  (3 < ip.click_intervals.length ∧ listStd ip.click_intervals < 0.1) ∨
  ip.perfect_linearity = true

/-- Embedding of `PatternAnalyzer._analyze_automation`. -/
noncomputable def analyze_automation (p : PlayerData) : ℝ :=
  let s1 : ℝ := if 5 < p.solving_times.length ∧
      0.9 < calculate_timing_consistency p.solving_times then 0.7 else 0
  let s2 : ℝ := if 0.98 < p.movement_efficiency then 0.6 else 0
  let s3 : ℝ := if has_mechanical_patterns p.interaction_patterns then 0.5 else 0
  min 1 (s1 + s2 + s3)

/-- Embedding of `PatternAnalyzer._detect_information_sharing`. -/
noncomputable def detect_information_sharing (cp : CommunicationPatterns) : Prop :=
  10 < cp.message_frequency ∧ 5 < cp.solution_sharing

/-- Embedding of `PatternAnalyzer._calculate_network_density`. -/
noncomputable def calculate_network_density (sc : List String) : ℝ :=
  if sc.length < 2 then 0
  else
    let maxc : ℝ := (sc.length : ℝ) * ((sc.length : ℝ) - 1) / 2
    let actual : ℝ := min maxc ((sc.length : ℝ) * 2)
    if 0 < maxc then actual / maxc else 0

/-- Embedding of `PatternAnalyzer._analyze_collaborative_cheating`. -/
noncomputable def analyze_collaborative_cheating (p : PlayerData) (gc : GameContext) : ℝ :=
  let s1 : ℝ := if detect_information_sharing p.communication_patterns then 0.5 else 0
  let s2 : ℝ := if ∃ i, p.player_id = some i ∧ i ∈ gc.coordinated_actions
    then 0.4 else 0
  let s3 : ℝ := if 10 < p.social_connections.length ∧
      0.8 < calculate_network_density p.social_connections then 0.3 else 0
  min 1 (s1 + s2 + s3)

/-- The catalog order of `_load_cheating_patterns`. -/
def pattern_names : List String :=
  ["speed_hacking", "location_spoofing", "multiple_accounts",
   "automation_detection", "collaborative_cheating"]

/-- The per-pattern detection thresholds of `_load_cheating_patterns`
(the catalog always contains the looked-up name, so the final branch is
never reached). -/
noncomputable def pattern_threshold : String → ℝ := fun n =>
  if n = "speed_hacking" then 0.8 else if n = "location_spoofing" then 0.7
  else if n = "multiple_accounts" then 0.6
  else if n = "automation_detection" then 0.75
  else if n = "collaborative_cheating" then 0.65 else 0

/-- The per-pattern weights of `_load_cheating_patterns`, with the 0.5
default of `_calculate_overall_risk` for unknown names. -/
noncomputable def pattern_weight : String → ℝ := fun n =>
  if n = "speed_hacking" then 0.9 else if n = "location_spoofing" then 0.8
  else if n = "multiple_accounts" then 0.7
  else if n = "automation_detection" then 0.85
  else if n = "collaborative_cheating" then 0.6 else 0.5

/-- Embedding of `PatternAnalyzer._analyze_single_pattern` (0.0 for
unknown pattern names, as the final else of the source). -/
noncomputable def pattern_score (p : PlayerData) (gc : GameContext) : String → ℝ := fun n =>
  if n = "speed_hacking" then analyze_speed_hacking p
  else if n = "location_spoofing" then analyze_location_spoofing p
  else if n = "multiple_accounts" then analyze_multiple_accounts p gc
  else if n = "automation_detection" then analyze_automation p
  else if n = "collaborative_cheating" then analyze_collaborative_cheating p gc
  else 0

/-- Embedding of `PatternAnalyzer._calculate_overall_risk` over the
(name, score) pairs of the pattern-scores dictionary. -/
noncomputable def calculate_overall_risk (scores : List (String × ℝ)) : ℝ :=
  if scores = [] then 0
  else
    let ws := (scores.map (fun q => q.2 * pattern_weight q.1)).sum
    let tw := (scores.map (fun q => pattern_weight q.1)).sum
    if 0 < tw then ws / tw else 0

/-- Embedding of `PatternAnalyzer._calculate_analysis_confidence`. -/
noncomputable def calculate_analysis_confidence (p : PlayerData) : ℝ :=
  min 1 (((p.solving_times.length : ℝ) +
    (p.location_data.movement_history.length : ℝ)) / 20)

/-- Result of `analyze_behavior_patterns`; evidence and recommendation
strings, which never feed back into scores, are omitted. -/
structure AnalysisResult where
  overall_risk_score : ℝ
  detected_patterns : List String
  pattern_scores : List (String × ℝ)
  confidence : ℝ

/-- Embedding of `PatternAnalyzer.analyze_behavior_patterns`: scores each
catalog pattern in order, collects those at or above their threshold, and
computes the weight-normalised overall risk. -/
noncomputable def analyze_behavior_patterns (p : PlayerData) (gc : GameContext) :
    AnalysisResult :=
  let scores := pattern_names.map (fun n => (n, pattern_score p gc n))
  let detected := pattern_names.filter
    (fun n => decide (pattern_threshold n ≤ pattern_score p gc n))
  ⟨calculate_overall_risk scores, detected, scores, calculate_analysis_confidence p⟩

end PatternAnalyzer

namespace LocationVerification

/-- One bearing-change step of `_check_straight_line_movement`:
math.atan2(x, y) is the argument of the complex number y + x*i. -/
noncomputable def atan2 (y x : ℝ) : ℝ := Complex.arg ⟨x, y⟩

/-- Python float modulo with a positive modulus (result in [0, m)). -/
noncomputable def pymod (x m : ℝ) : ℝ := x - m * ⌊x / m⌋

/-- Embedding of `LocationVerificationService._calculate_bearing`. -/
noncomputable def calculate_bearing (p1 p2 : TimedLoc) : ℝ :=
  let lat1 := radiansOf p1.lat
  let lon1 := radiansOf p1.lon
  let lat2 := radiansOf p2.lat
  let lon2 := radiansOf p2.lon
  let dlon := lon2 - lon1
  let x := Real.sin dlon * Real.cos lat2
  let y := Real.cos lat1 * Real.sin lat2 -
    Real.sin lat1 * Real.cos lat2 * Real.cos dlon
  pymod (atan2 x y * 180 / Real.pi) 360

/-- Embedding of `LocationVerificationService._calculate_variance`
(0 for fewer than two values). -/
noncomputable def calculate_variance_lvs (values : List ℝ) : ℝ :=
  if values.length < 2 then 0 else listVariance values

/-- Embedding of `_check_straight_line_movement`: at least four points and
bearing variance below 10. -/
noncomputable def check_straight_line_movement (h : List TimedLoc) : Prop :=
  4 ≤ h.length ∧
  calculate_variance_lvs ((h.zip h.tail).map (fun pr => calculate_bearing pr.1 pr.2)) < 10

/-- Embedding of `_check_repetitive_patterns`: at least six points and more
than 30 percent duplicate coordinates. -/
noncomputable def check_repetitive_patterns (h : List TimedLoc) : Prop :=
  6 ≤ h.length ∧
  0.3 < 1 - (((h.map (fun l => (l.lat, l.lon))).dedup.length : ℝ) / h.length)

/-- One teleportation test of `verify_movement_patterns`: positive time
delta and haversine speed above 50 m/s. -/
noncomputable def teleport_pair (pr : TimedLoc × TimedLoc) : Prop :=
  0 < pr.2.timestamp - pr.1.timestamp ∧
  50 < calculate_distance pr.1.lat pr.1.lon pr.2.lat pr.2.lon /
    (pr.2.timestamp - pr.1.timestamp)

/-- The teleportation loop of `verify_movement_patterns`: halves the
running score once per offending consecutive pair. -/
noncomputable def speedPenalty : List (TimedLoc × TimedLoc) → ℝ → ℝ
  | [], s => s
  | pr :: rest, s => speedPenalty rest (if teleport_pair pr then s * 0.5 else s)

/-- Result of `verify_movement_patterns`; the issue strings and data-point
count, which never feed back into the verdict, are omitted. -/
structure MovementResult where
  natural_movement : Prop
  confidence : ℝ

/-- Embedding of `LocationVerificationService.verify_movement_patterns`. -/
noncomputable def verify_movement_patterns (h : List TimedLoc) : MovementResult :=
  if h.length < 3 then ⟨True, 0.5⟩
  else
    let s1 := speedPenalty (h.zip h.tail) 1
    let s2 := if check_straight_line_movement h then s1 * 0.7 else s1
    let s3 := if check_repetitive_patterns h then s2 * 0.8 else s2
    ⟨0.6 ≤ s3, s3⟩

end LocationVerification

namespace FraudDetector

/-- The decimal rendering of a Python number, as far as
`_is_rounded_coordinate` inspects it through str(x): whether the string
contains a decimal point, and how many characters follow it.  A float in
fixed notation always has the point; a plain int never does. -/
structure DecimalRepr where
  hasPoint : Bool
  fracLen : ℕ

/-- Embedding of `FraudDetector._is_rounded_coordinate`: true when either
component prints with a decimal point followed by fewer than 4 digits. -/
def is_rounded_coordinate (lat lon : DecimalRepr) : Bool :=
  (lat.hasPoint && decide (lat.fracLen < 4)) ||
  (lon.hasPoint && decide (lon.fracLen < 4))

/-- Embedding of `FraudDetector._check_coordinate_rounding`: false for an
empty list, else suspicious when more than half the coordinates are
rounded. -/
noncomputable def check_coordinate_rounding
    (locations : List (DecimalRepr × DecimalRepr)) : Prop :=
  locations ≠ [] ∧
  0.5 < ((locations.countP (fun l => is_rounded_coordinate l.1 l.2) : ℝ) /
    (locations.length : ℝ))

/-- Embedding of `FraudDetector._calculate_distance` — the simplified
rectangular distance in metres, explicitly not the haversine formula. -/
noncomputable def calculate_distance_fd (l1 l2 : TimedLoc) : ℝ :=
  (|l1.lat - l2.lat| + |l1.lon - l2.lon|) * 111000

/-- Embedding of `FraudDetector._check_impossible_movements`: some
consecutive pair with positive time delta moves faster than 500 km/h
(histories shorter than 2 have no pairs and are never flagged, matching
the early return of the source). -/
noncomputable def check_impossible_movements (history : List TimedLoc) : Prop :=
  ∃ pr ∈ history.zip history.tail,
    0 < pr.2.timestamp - pr.1.timestamp ∧
    500 < (calculate_distance_fd pr.1 pr.2 / 1000) /
      ((pr.2.timestamp - pr.1.timestamp) / 3600)

/-- The location_data sub-dictionary read by the fraud detector. -/
structure LocationDataF where
  is_mock_provider : Bool
  gps_accuracy : ℝ
  location_history : List TimedLoc
  locations : List (DecimalRepr × DecimalRepr)

/-- Player record read by `FraudDetector`, defaults filled in. -/
structure PlayerDataF where
  location_data : LocationDataF
  device_fingerprint : String
  ip_address : String
  solving_times : List ℝ
  success_rate : ℝ
  movement_efficiency : ℝ
  player_id : Option String
  communication_frequency : ℝ
  recent_solve_times : List ℝ

/-- Game context read by `FraudDetector`. -/
structure GameContextF where
  similar_players : List String
  players_per_ip : String → ℕ
  coordinated_movements : List String
  similar_solutions : ℕ

/-- The per-instance `suspicious_activities` dictionary as far as
`_detect_multiple_accounts` reads it: device fingerprint to the
account_count of its entry (absent count defaulting to 0 is folded in). -/
def SuspiciousActivities := String → Option ℕ

/-- Embedding of `FraudDetector._detect_location_fraud` (the detected
flag; evidence strings omitted). -/
noncomputable def detect_location_fraud (l : LocationDataF) : Prop :=
  l.is_mock_provider = true ∨ 1000 < l.gps_accuracy ∨
  check_impossible_movements l.location_history ∨
  check_coordinate_rounding l.locations

/-- Embedding of `FraudDetector._detect_multiple_accounts`. -/
noncomputable def detect_multiple_accounts (susp : SuspiciousActivities)
    (p : PlayerDataF) (gc : GameContextF) : Prop :=
  (∃ c, susp p.device_fingerprint = some c ∧ 2 < c) ∨
  3 < gc.similar_players.length ∨
  5 < gc.players_per_ip p.ip_address

/-- Embedding of `FraudDetector._calculate_std_dev` (0 for fewer than two
values). -/
noncomputable def calculate_std_dev (values : List ℝ) : ℝ :=
  if values.length < 2 then 0 else Real.sqrt (listVariance values)

/-- Embedding of `FraudDetector._detect_automation`. -/
noncomputable def detect_automation (p : PlayerDataF) : Prop :=
  (p.solving_times ≠ [] ∧
    (listMean p.solving_times < 30 ∨
     (5 < p.solving_times.length ∧ calculate_std_dev p.solving_times < 5))) ∨
  0.95 < p.success_rate ∨ 0.98 < p.movement_efficiency

/-- Embedding of `FraudDetector._check_information_sharing`. -/
noncomputable def check_information_sharing (p : PlayerDataF) (gc : GameContextF) : Prop :=
  10 < p.communication_frequency ∧ 5 < gc.similar_solutions

/-- Embedding of `FraudDetector._check_rapid_succession_solves`. -/
noncomputable def check_rapid_succession_solves (p : PlayerDataF) : Prop :=
  3 ≤ p.recent_solve_times.length ∧
  listMean ((p.recent_solve_times.zip p.recent_solve_times.tail).map
    (fun pr => pr.2 - pr.1)) < 60

/-- Embedding of `FraudDetector._detect_collaborative_cheating`. -/
noncomputable def detect_collaborative_cheating (p : PlayerDataF)
    (gc : GameContextF) : Prop :=
  check_information_sharing p gc ∨
  (∃ i, p.player_id = some i ∧ i ∈ gc.coordinated_movements) ∨
  check_rapid_succession_solves p

/-- The static risk scores of `_load_fraud_patterns` (0 for names outside
the catalog; never looked up by the source). -/
noncomputable def fraud_risk_score : String → ℝ := fun n =>
  if n = "location_spoofing" then 0.8 else if n = "multiple_accounts" then 0.7
  else if n = "automation_detection" then 0.9
  else if n = "collaborative_cheating" then 0.6 else 0

/-- Result of `detect_fraud_patterns`; evidence, recommendations and the
evidence-count confidence are omitted (they never feed the claimed
fields). -/
structure FraudResult where
  detected_patterns : List String
  risk_score : ℝ

/-- Embedding of `FraudDetector.detect_fraud_patterns`: the four checks in
source order, each appending its pattern name and raising the running risk
score to the catalog value via max. -/
noncomputable def detect_fraud_patterns (susp : SuspiciousActivities)
    (p : PlayerDataF) (gc : GameContextF) : FraudResult :=
  let l := detect_location_fraud p.location_data
  let m := detect_multiple_accounts susp p gc
  let a := detect_automation p
  let c := detect_collaborative_cheating p gc
  let pats :=
    (if l then ["location_spoofing"] else []) ++
    (if m then ["multiple_accounts"] else []) ++
    (if a then ["automation_detection"] else []) ++
    (if c then ["collaborative_cheating"] else [])
  let r1 : ℝ := if l then max 0 (fraud_risk_score "location_spoofing") else 0
  let r2 := if m then max r1 (fraud_risk_score "multiple_accounts") else r1
  let r3 := if a then max r2 (fraud_risk_score "automation_detection") else r2
  let r4 := if c then max r3 (fraud_risk_score "collaborative_cheating") else r3
  ⟨pats, r4⟩

end FraudDetector

namespace AnomalyDetector

/-- Player record read by `_extract_anomaly_features`, defaults filled
in. -/
structure PlayerDataA where
  avg_solving_time : ℝ
  time_variance : ℝ
  session_duration_avg : ℝ
  success_rate : ℝ
  streak_consistency : ℝ
  failure_recovery_time : ℝ
  movement_efficiency : ℝ
  location_accuracy_avg : ℝ
  unusual_movements : ℝ
  hint_usage_rate : ℝ
  retry_frequency : ℝ
  exploration_thoroughness : ℝ
  device_consistency : ℝ
  connection_stability : ℝ

/-- Embedding of `AnomalyDetector._extract_anomaly_features`: the fixed
14-entry feature vector. -/
def extract_anomaly_features (p : PlayerDataA) : List ℝ :=
  [p.avg_solving_time, p.time_variance, p.session_duration_avg,
   p.success_rate, p.streak_consistency, p.failure_recovery_time,
   p.movement_efficiency, p.location_accuracy_avg, p.unusual_movements,
   p.hint_usage_rate, p.retry_frequency, p.exploration_thoroughness,
   p.device_consistency, p.connection_stability]

/-- The scikit-learn IsolationForest step, modelled as an oracle that
either yields (decision_function score, predict == -1) or raises. -/
def AnomalyModel : Type := List ℝ → Except String (ℝ × Bool)

/-- Result dictionary of `detect_behavior_anomalies`; risk_level is absent
(none) on the insufficient-data and failure branches. -/
structure AnomalyOutcome where
  anomaly_score : ℝ
  is_anomaly : Bool
  confidence : ℝ
  anomaly_type : String
  risk_level : Option String

/-- Embedding of `AnomalyDetector._classify_anomaly_type` (the
player_data argument of the source is read nowhere). -/
noncomputable def classify_anomaly_type (features : List ℝ) : String :=
  let solving_time := features.getD 0 0
  let success_rate := features.getD 3 0
  let movement_efficiency := features.getD 6 0
  let hint_usage := features.getD 9 0
  if solving_time < 30 ∧ 0.9 < success_rate then "unnatural_speed"
  else if 0.95 < movement_efficiency ∧ 0.95 < success_rate then "perfect_movement"
  else if hint_usage < 0.1 ∧ 0.9 < success_rate then "low_hint_high_success"
  else if solving_time < 20 then "extremely_fast_solving"
  else "behavioral_shift"

/-- The risk_factors lookup of `_assess_risk_level`, default 0.5. -/
noncomputable def risk_factor : String → ℝ := fun t =>
  if t = "unnatural_speed" then 0.8 else if t = "perfect_movement" then 0.9
  else if t = "low_hint_high_success" then 0.7
  else if t = "extremely_fast_solving" then 0.85
  else if t = "behavioral_shift" then 0.5 else 0.5

/-- Embedding of `AnomalyDetector._assess_risk_level`. -/
noncomputable def assess_risk_level (score : ℝ) (atype : String) : String :=
  let weighted := score * risk_factor atype
  if 0.8 < weighted then "high" else if 0.6 < weighted then "medium"
  else if 0.4 < weighted then "low" else "minimal"

/-- Embedding of `AnomalyDetector.detect_behavior_anomalies`: the empty
feature guard, the model step inside try, and the fixed neutral result of
the except branch. -/
noncomputable def detect_behavior_anomalies (model : AnomalyModel)
    (p : PlayerDataA) : AnomalyOutcome :=
  let features := extract_anomaly_features p
  if features.length = 0 then ⟨0, false, 0, "insufficient_data", none⟩
  else
    match model features with
    | Except.ok sa =>
      let normalized := (sa.1 + 0.5) / 1
      let atype := classify_anomaly_type features
      ⟨normalized, sa.2, |sa.1|, atype, some (assess_risk_level normalized atype)⟩
    | Except.error _ => ⟨0.5, false, 0, "detection_failed", none⟩

end AnomalyDetector

/-- C9: whenever the anomaly-scoring model step inside
`detect_behavior_anomalies` raises, the function catches the exception and
returns the fixed neutral result (anomaly_score 0.5, is_anomaly false,
confidence 0.0) instead of retrying or propagating the failure. -/
theorem C9_neutral_on_model_failure (model : AnomalyDetector.AnomalyModel)
    (p : AnomalyDetector.PlayerDataA) (e : String)
    (h : model (AnomalyDetector.extract_anomaly_features p) = Except.error e) :
    AnomalyDetector.detect_behavior_anomalies model p =
      ⟨0.5, false, 0, "detection_failed", none⟩ := by
  have hlen : (AnomalyDetector.extract_anomaly_features p).length = 14 := by
    simp [AnomalyDetector.extract_anomaly_features]
  simp only [AnomalyDetector.detect_behavior_anomalies, hlen, h]
  norm_num

/-- Witness for C9 at a concrete player record and an always-raising
model. -/
theorem C9_witness :
    AnomalyDetector.detect_behavior_anomalies (fun _ => Except.error "model failure")
      ⟨0, 0, 0, 0, 0, 0, 0, 0, 0, 0, 0, 0, 0, 0⟩ =
      ⟨0.5, false, 0, "detection_failed", none⟩ :=
  C9_neutral_on_model_failure (fun _ => Except.error "model failure")
    ⟨0, 0, 0, 0, 0, 0, 0, 0, 0, 0, 0, 0, 0, 0⟩ "model failure" rfl

/-- C6: `_is_rounded_coordinate` returns true for every coordinate pair in
which some component prints with a decimal point followed by fewer than 4
digits (every Python float in fixed notation prints with the point). -/
theorem C6_rounded_coordinate_flagged (lat lon : FraudDetector.DecimalRepr)
    (h : (lat.hasPoint = true ∧ lat.fracLen < 4) ∨
         (lon.hasPoint = true ∧ lon.fracLen < 4)) :
    FraudDetector.is_rounded_coordinate lat lon = true := by
  simp only [FraudDetector.is_rounded_coordinate, Bool.or_eq_true, Bool.and_eq_true,
    decide_eq_true_eq]
  exact h

/-- Witness for C6 at a latitude with 2 decimal digits. -/
theorem C6_witness :
    FraudDetector.is_rounded_coordinate ⟨true, 2⟩ ⟨true, 6⟩ = true :=
  C6_rounded_coordinate_flagged ⟨true, 2⟩ ⟨true, 6⟩ (Or.inl ⟨rfl, by decide⟩)

/-- Trust history used by the C1 counterexample: player p1 has a stored
score of 1 recorded at day 0. -/
noncomputable def c1CounterHist : TrustScorer.TrustHistory :=
  fun q => if q = "p1" then some (0, 1) else none

/-- C1 fails on the code: a score computed N = 0 days after a prior entry
with stored score 1 should equal 1 * 0.95 ^ 0 = 1 by the claim, but
`_apply_trust_decay` returns the decayed new score (here 0), ignoring the
prior stored score and never blending. -/
theorem C1_counterexample :
    (TrustScorer.apply_trust_decay c1CounterHist (some "p1") 0 0).1 ≠
      1 * (0.95 : ℝ) ^ (0 : ℤ) := by
  simp [TrustScorer.apply_trust_decay, c1CounterHist]

/-- C1 (amended): for a truthy player id with a prior history entry,
`_apply_trust_decay` multiplies the newly computed weighted score — not
the prior stored score — by 0.95 ^ days_elapsed, stores the result and
returns it; no blending with the prior score occurs. -/
theorem C1_decay_multiplies_new_score (hist : TrustScorer.TrustHistory)
    (pid : String) (hpid : pid ≠ "") (last : ℤ) (prior : ℝ)
    (hh : hist pid = some (last, prior)) (now : ℤ) (_hN : 0 ≤ now - last)
    (current : ℝ) :
    (TrustScorer.apply_trust_decay hist (some pid) now current).1 =
        current * (0.95 : ℝ) ^ (now - last) ∧
    (TrustScorer.apply_trust_decay hist (some pid) now current).2 pid =
        some (now, current * (0.95 : ℝ) ^ (now - last)) := by
  simp [TrustScorer.apply_trust_decay, hpid, hh]

/-- Trust history used by the C1 witness: player p2 has a stored score of
1/2 recorded at day 3. -/
noncomputable def c1WitnessHist : TrustScorer.TrustHistory :=
  fun q => if q = "p2" then some (3, 1 / 2) else none

/-- Witness for the amended C1 at day 5 with new weighted score 4/5. -/
theorem C1_witness :
    (TrustScorer.apply_trust_decay c1WitnessHist (some "p2") 5 (4 / 5)).1 =
        (4 / 5 : ℝ) * (0.95 : ℝ) ^ ((5 : ℤ) - 3) ∧
    (TrustScorer.apply_trust_decay c1WitnessHist (some "p2") 5 (4 / 5)).2 "p2" =
        some (5, (4 / 5 : ℝ) * (0.95 : ℝ) ^ ((5 : ℤ) - 3)) :=
  C1_decay_multiplies_new_score c1WitnessHist "p2" (by decide) 3 (1 / 2)
    (by simp [c1WitnessHist]) 5 (by decide) (4 / 5)

/-- The gps confidence always lands in [0, 1]. -/
theorem gps_conf_mem (ld : LocationVerification.LocationData) :
    0 ≤ (LocationVerification.verify_gps_location ld).confidence ∧
    (LocationVerification.verify_gps_location ld).confidence ≤ 1 := by
  simp only [LocationVerification.verify_gps_location]
  refine ⟨le_min (by norm_num) ?_, min_le_left _ _⟩
  split_ifs <;> norm_num

/-- The wifi confidence always lands in [0, 1]. -/
theorem wifi_conf_mem (ld : LocationVerification.LocationData) :
    0 ≤ (LocationVerification.verify_wifi_fingerprint ld).confidence ∧
    (LocationVerification.verify_wifi_fingerprint ld).confidence ≤ 1 := by
  simp only [LocationVerification.verify_wifi_fingerprint,
    LocationVerification.check_network_stability]
  split_ifs <;>
    first
      | exact ⟨le_refl 0, by norm_num⟩
      | exact ⟨le_min (by norm_num) (by norm_num), min_le_left _ _⟩

/-- The cell confidence always lands in [0, 1]. -/
theorem cell_conf_mem (ld : LocationVerification.LocationData) :
    0 ≤ (LocationVerification.verify_cell_towers ld).confidence ∧
    (LocationVerification.verify_cell_towers ld).confidence ≤ 1 := by
  simp only [LocationVerification.verify_cell_towers]
  have hsum : 0 ≤ (ld.cell_towers.map (fun t =>
      if -80 < t.signal_strength then (0.1 : ℝ)
      else if -90 < t.signal_strength then 0.05 else 0)).sum := by
    apply List.sum_nonneg
    intro x hx
    rcases List.mem_map.1 hx with ⟨t, _, rfl⟩
    split_ifs <;> norm_num
  split_ifs <;>
    first
      | exact ⟨le_refl 0, by norm_num⟩
      | exact ⟨le_min (by norm_num) (by nlinarith), le_trans (min_le_left _ _) (by norm_num)⟩

/-- The bluetooth confidence always lands in [0, 1]. -/
theorem bluetooth_conf_mem (ld : LocationVerification.LocationData) :
    0 ≤ (LocationVerification.verify_bluetooth_beacons ld).confidence ∧
    (LocationVerification.verify_bluetooth_beacons ld).confidence ≤ 1 := by
  simp only [LocationVerification.verify_bluetooth_beacons]
  split_ifs <;> norm_num

/-- The ip confidence always lands in [0, 1]. -/
theorem ip_conf_mem (ld : LocationVerification.LocationData) :
    0 ≤ (LocationVerification.verify_ip_geolocation ld).confidence ∧
    (LocationVerification.verify_ip_geolocation ld).confidence ≤ 1 := by
  simp only [LocationVerification.verify_ip_geolocation]
  rcases hg : ld.gps with _ | g <;> simp only [hg] <;>
    split_ifs <;>
      first
        | exact ⟨le_refl 0, by norm_num⟩
        | exact ⟨le_min (by norm_num) (by norm_num), min_le_left _ _⟩

/-- C2: the trust_score returned by `calculate_trust_score` is clamped to
[0, 1], and the overall_confidence of
`comprehensive_location_verification` lies in [0, 1], whatever the
magnitudes of the numeric input fields. -/
theorem C2_scores_bounded :
    (∀ (hist : TrustScorer.TrustHistory) (now : ℤ) (p : TrustScorer.PlayerData)
        (v : TrustScorer.VerificationResults),
      0 ≤ (TrustScorer.calculate_trust_score hist now p v).1.trust_score ∧
      (TrustScorer.calculate_trust_score hist now p v).1.trust_score ≤ 1) ∧
    (∀ ld : LocationVerification.LocationData,
      0 ≤ (LocationVerification.comprehensive_location_verification ld).overall_confidence ∧
      (LocationVerification.comprehensive_location_verification ld).overall_confidence ≤ 1) := by
  constructor
  · intro hist now p v
    simp only [TrustScorer.calculate_trust_score]
    exact ⟨le_max_left _ _, max_le (by norm_num) (min_le_left _ _)⟩
  · intro ld
    have hg := gps_conf_mem ld
    have hw := wifi_conf_mem ld
    have hc := cell_conf_mem ld
    have hb := bluetooth_conf_mem ld
    have hi := ip_conf_mem ld
    simp only [LocationVerification.comprehensive_location_verification,
      LocationVerification.method_results, List.foldl_cons, List.foldl_nil,
      LocationVerification.method_weight, String.reduceEq, reduceIte]
    norm_num
    constructor <;> nlinarith [hg.1, hg.2, hw.1, hw.2, hc.1, hc.2, hb.1, hb.2, hi.1, hi.2]

/-- C3: `comprehensive_location_verification` computes the overall
confidence as the 0.4/0.25/0.2/0.1/0.05-weighted sum of the five
per-method confidences, and the verified flag holds iff that confidence is
at least 0.7. -/
theorem C3_weighted_sum_and_threshold (ld : LocationVerification.LocationData) :
    (LocationVerification.comprehensive_location_verification ld).overall_confidence =
      0.4 * (LocationVerification.verify_gps_location ld).confidence +
      0.25 * (LocationVerification.verify_wifi_fingerprint ld).confidence +
      0.2 * (LocationVerification.verify_cell_towers ld).confidence +
      0.1 * (LocationVerification.verify_bluetooth_beacons ld).confidence +
      0.05 * (LocationVerification.verify_ip_geolocation ld).confidence ∧
    ((LocationVerification.comprehensive_location_verification ld).verified ↔
      0.7 ≤ (LocationVerification.comprehensive_location_verification ld).overall_confidence) := by
  constructor
  · simp only [LocationVerification.comprehensive_location_verification,
      LocationVerification.method_results, List.foldl_cons, List.foldl_nil,
      LocationVerification.method_weight, String.reduceEq, reduceIte]
    norm_num
    ring
  · exact Iff.rfl

/-- C4: the overall_risk_score of `analyze_behavior_patterns` is the sum
of score times pattern weight over the five patterns divided by the sum of
the weights, and a pattern name is in detected_patterns iff its score
reaches that pattern's configured threshold. -/
theorem C4_risk_average_and_thresholds (p : PatternAnalyzer.PlayerData)
    (gc : PatternAnalyzer.GameContext) :
    (PatternAnalyzer.analyze_behavior_patterns p gc).overall_risk_score =
      (PatternAnalyzer.analyze_speed_hacking p * 0.9 +
       PatternAnalyzer.analyze_location_spoofing p * 0.8 +
       PatternAnalyzer.analyze_multiple_accounts p gc * 0.7 +
       PatternAnalyzer.analyze_automation p * 0.85 +
       PatternAnalyzer.analyze_collaborative_cheating p gc * 0.6) /
      (0.9 + 0.8 + 0.7 + 0.85 + 0.6) ∧
    ∀ n : String,
      n ∈ (PatternAnalyzer.analyze_behavior_patterns p gc).detected_patterns ↔
      (n ∈ PatternAnalyzer.pattern_names ∧
        PatternAnalyzer.pattern_threshold n ≤ PatternAnalyzer.pattern_score p gc n) := by
  constructor
  · simp only [PatternAnalyzer.analyze_behavior_patterns,
      PatternAnalyzer.calculate_overall_risk, PatternAnalyzer.pattern_names,
      List.map_cons, List.map_nil, List.sum_cons, List.sum_nil,
      PatternAnalyzer.pattern_score, PatternAnalyzer.pattern_weight,
      String.reduceEq, reduceIte, reduceCtorEq, if_false]
    split_ifs with h
    · ring
    · exfalso; apply h; norm_num
  · intro n
    simp only [PatternAnalyzer.analyze_behavior_patterns, List.mem_filter,
      decide_eq_true_eq]

/-- Player data for the C5 counterexample: a single 10-second solve,
perfect success rate, movement efficiency 0.99 and no interaction
patterns. -/
noncomputable def c5Player : PatternAnalyzer.PlayerData :=
  ⟨none, [10], 1, ⟨[], [], false⟩, none, none, ⟨[], false⟩, 0.99, [], ⟨0, 0⟩⟩

/-- Empty game context for the C5 counterexample. -/
noncomputable def c5Context : PatternAnalyzer.GameContext := ⟨[], fun _ => 0, [], []⟩

/-- C5 fails on the code: this player satisfies all the claim's
hypotheses (success_rate 1, non-empty solving times with mean below 20,
movement efficiency above 0.98) yet automation_detection is not among the
detected patterns — its score is only 0.6, below the 0.75 threshold,
because the timing-consistency branch needs more than five solving
times. -/
theorem C5_counterexample :
    c5Player.success_rate = 1 ∧ c5Player.solving_times ≠ [] ∧
    listMean c5Player.solving_times < 20 ∧ 0.98 < c5Player.movement_efficiency ∧
    "automation_detection" ∉
      (PatternAnalyzer.analyze_behavior_patterns c5Player c5Context).detected_patterns := by
  have hauto : PatternAnalyzer.analyze_automation c5Player = 0.6 := by
    norm_num [PatternAnalyzer.analyze_automation, c5Player,
      PatternAnalyzer.has_mechanical_patterns, min_def]
  refine ⟨rfl, by simp [c5Player], by norm_num [c5Player, listMean], by norm_num [c5Player], ?_⟩
  simp only [PatternAnalyzer.analyze_behavior_patterns, List.mem_filter,
    decide_eq_true_eq, PatternAnalyzer.pattern_score, PatternAnalyzer.pattern_threshold,
    String.reduceEq, reduceIte]
  rintro ⟨-, hle⟩
  rw [hauto] at hle
  norm_num at hle

/-- C5 (amended): under the claim's hypotheses speed_hacking is always
detected, while automation_detection is detected iff additionally the
timing-consistency branch fires (more than five solving times with
consistency above 0.9) or the mechanical-interaction check fires;
movement efficiency above 0.98 alone scores 0.6, below the 0.75
threshold. -/
theorem C5_speed_always_automation_conditional (p : PatternAnalyzer.PlayerData)
    (gc : PatternAnalyzer.GameContext) (_h1 : p.success_rate = 1)
    (h2 : p.solving_times ≠ []) (h3 : listMean p.solving_times < 20)
    (h4 : 0.98 < p.movement_efficiency) :
    "speed_hacking" ∈ (PatternAnalyzer.analyze_behavior_patterns p gc).detected_patterns ∧
    ("automation_detection" ∈
        (PatternAnalyzer.analyze_behavior_patterns p gc).detected_patterns ↔
      ((5 < p.solving_times.length ∧
          0.9 < PatternAnalyzer.calculate_timing_consistency p.solving_times) ∨
        PatternAnalyzer.has_mechanical_patterns p.interaction_patterns)) := by
  have hsh : 0.8 ≤ PatternAnalyzer.analyze_speed_hacking p := by
    simp only [PatternAnalyzer.analyze_speed_hacking, if_pos h2, if_pos h3]
    refine le_min (by norm_num) ?_
    split_ifs <;> norm_num
  have hauto : PatternAnalyzer.analyze_automation p =
      min 1 ((if 5 < p.solving_times.length ∧
          0.9 < PatternAnalyzer.calculate_timing_consistency p.solving_times
        then (0.7 : ℝ) else 0) + 0.6 +
        (if PatternAnalyzer.has_mechanical_patterns p.interaction_patterns
        then (0.5 : ℝ) else 0)) := by
    simp only [PatternAnalyzer.analyze_automation, if_pos h4]
  constructor
  · simp only [PatternAnalyzer.analyze_behavior_patterns, List.mem_filter,
      decide_eq_true_eq, PatternAnalyzer.pattern_score,
      PatternAnalyzer.pattern_threshold, String.reduceEq, reduceIte]
    exact ⟨by simp [PatternAnalyzer.pattern_names], hsh⟩
  · simp only [PatternAnalyzer.analyze_behavior_patterns, List.mem_filter,
      decide_eq_true_eq, PatternAnalyzer.pattern_score,
      PatternAnalyzer.pattern_threshold, String.reduceEq, reduceIte, hauto]
    constructor
    · rintro ⟨-, hle⟩
      by_contra hcon
      rw [not_or] at hcon
      rw [if_neg hcon.1, if_neg hcon.2] at hle
      norm_num [min_def] at hle
    · intro hor
      refine ⟨by simp [PatternAnalyzer.pattern_names], ?_⟩
      rcases Classical.em (5 < p.solving_times.length ∧
          0.9 < PatternAnalyzer.calculate_timing_consistency p.solving_times) with hT | hT <;>
        rcases Classical.em
            (PatternAnalyzer.has_mechanical_patterns p.interaction_patterns) with hM | hM
      · rw [if_pos hT, if_pos hM]; norm_num [min_def]
      · rw [if_pos hT, if_neg hM]; norm_num [min_def]
      · rw [if_neg hT, if_pos hM]; norm_num [min_def]
      · exact absurd hor (not_or.mpr ⟨hT, hM⟩)

/-- Player data for the C5 witness: six identical 10-second solves fire
the timing-consistency branch on top of the claim's hypotheses. -/
noncomputable def c5WitnessPlayer : PatternAnalyzer.PlayerData :=
  ⟨none, [10, 10, 10, 10, 10, 10], 1, ⟨[], [], false⟩, none, none, ⟨[], false⟩,
    0.99, [], ⟨0, 0⟩⟩

/-- Witness for the amended C5 at a concrete player and context. -/
theorem C5_witness :
    "speed_hacking" ∈
      (PatternAnalyzer.analyze_behavior_patterns c5WitnessPlayer c5Context).detected_patterns ∧
    ("automation_detection" ∈
        (PatternAnalyzer.analyze_behavior_patterns c5WitnessPlayer c5Context).detected_patterns ↔
      ((5 < c5WitnessPlayer.solving_times.length ∧
          0.9 < PatternAnalyzer.calculate_timing_consistency c5WitnessPlayer.solving_times) ∨
        PatternAnalyzer.has_mechanical_patterns c5WitnessPlayer.interaction_patterns)) :=
  C5_speed_always_automation_conditional c5WitnessPlayer c5Context rfl
    (by simp [c5WitnessPlayer])
    (by norm_num [c5WitnessPlayer, listMean])
    (by norm_num [c5WitnessPlayer])

/-- C10: the risk_score of `detect_fraud_patterns` is the maximum of the
static catalog risk scores of the detected patterns (0.8 / 0.7 / 0.9 /
0.6), hence always lies in the finite set 0, 0.6, 0.7, 0.8, 0.9 and is 0
exactly when no pattern is detected. -/
theorem C10_risk_is_max_of_detected (susp : FraudDetector.SuspiciousActivities)
    (p : FraudDetector.PlayerDataF) (gc : FraudDetector.GameContextF) :
    (FraudDetector.detect_fraud_patterns susp p gc).risk_score =
      ((FraudDetector.detect_fraud_patterns susp p gc).detected_patterns.map
        FraudDetector.fraud_risk_score).foldr max 0 ∧
    (FraudDetector.detect_fraud_patterns susp p gc).risk_score ∈
      ({0, 0.6, 0.7, 0.8, 0.9} : Set ℝ) ∧
    ((FraudDetector.detect_fraud_patterns susp p gc).risk_score = 0 ↔
      (FraudDetector.detect_fraud_patterns susp p gc).detected_patterns = []) := by
  simp only [FraudDetector.detect_fraud_patterns, FraudDetector.fraud_risk_score,
    String.reduceEq, reduceIte]
  rcases Classical.em (FraudDetector.detect_location_fraud p.location_data) with hl | hl <;>
    rcases Classical.em (FraudDetector.detect_multiple_accounts susp p gc) with hm | hm <;>
      rcases Classical.em (FraudDetector.detect_automation p) with ha | ha <;>
        rcases Classical.em (FraudDetector.detect_collaborative_cheating p gc) with hc | hc <;>
          simp only [if_pos, if_neg, hl, hm, ha, hc, ite_true, ite_false,
            List.append_nil, List.nil_append, List.cons_append, List.map_cons,
            List.map_nil, List.foldr_cons, List.foldr_nil,
            Set.mem_insert_iff, Set.mem_singleton_iff] <;>
          (try simp only [FraudDetector.fraud_risk_score, String.reduceEq, reduceIte]) <;>
          (try norm_num [max_def]) <;> (try simp)

/-- The haversine distance from any point to itself vanishes. -/
theorem calculate_distance_self (lat lon : ℝ) :
    LocationVerification.calculate_distance lat lon lat lon = 0 := by
  simp [LocationVerification.calculate_distance, LocationVerification.radiansOf]

/-- The haversine distance between (0, 0) and (0, 90) is a quarter of the
Earth's circumference. -/
theorem calculate_distance_quarter :
    LocationVerification.calculate_distance 0 0 0 90 = 6371000 * (Real.pi / 2) := by
  simp only [LocationVerification.calculate_distance, LocationVerification.radiansOf]
  rw [show (0 : ℝ) * Real.pi / 180 = 0 from by ring]
  rw [show ((90 : ℝ) * Real.pi / 180 - 0) / 2 = Real.pi / 4 from by ring]
  rw [show ((0 : ℝ) - 0) / 2 = 0 from by ring]
  rw [Real.sin_zero, Real.cos_zero, Real.sin_pi_div_four]
  have h2 : (Real.sqrt 2 / 2) ^ 2 = 1 / 2 := by
    rw [div_pow, Real.sq_sqrt (by norm_num : (0 : ℝ) ≤ 2)]; norm_num
  have ha : (0 : ℝ) ^ 2 + 1 * 1 * (Real.sqrt 2 / 2) ^ 2 = 1 / 2 := by rw [h2]; ring
  rw [ha]
  have hs : Real.sqrt (1 / 2) = Real.sqrt 2 / 2 := by
    rw [← h2, Real.sqrt_sq (by positivity)]
  rw [hs, ← Real.sin_pi_div_four,
    Real.arcsin_sin (by nlinarith [Real.pi_pos]) (by nlinarith [Real.pi_pos])]
  ring

/-- The haversine distance for a 0.001-degree latitude step at the
equator. -/
theorem calculate_distance_small :
    LocationVerification.calculate_distance 0 0 (1 / 1000) 0 =
      6371000 * (Real.pi / 180000) := by
  simp only [LocationVerification.calculate_distance, LocationVerification.radiansOf]
  rw [show (0 : ℝ) * Real.pi / 180 = 0 from by ring]
  rw [show ((1 / 1000 : ℝ) * Real.pi / 180 - 0) / 2 = Real.pi / 360000 from by ring]
  rw [show ((0 : ℝ) - 0) / 2 = 0 from by ring]
  rw [Real.sin_zero]
  rw [show ∀ x y : ℝ, x ^ 2 + y * 0 ^ 2 = x ^ 2 from by intro x y; ring]
  have hnn : 0 ≤ Real.sin (Real.pi / 360000) := by
    apply Real.sin_nonneg_of_nonneg_of_le_pi
    · positivity
    · nlinarith [Real.pi_pos]
  rw [Real.sqrt_sq hnn]
  rw [Real.arcsin_sin (by nlinarith [Real.pi_pos]) (by nlinarith [Real.pi_pos])]
  ring

/-- C8: the haversine `_calculate_distance` of the location verification
service returns 0 for identical coordinate pairs and exactly
pi * 6371000 metres — half the Earth's circumference — for antipodal
points (lat2 = -lat1, lon2 = lon1 + 180). -/
theorem C8_haversine_identical_and_antipodal :
    (∀ lat lon : ℝ, LocationVerification.calculate_distance lat lon lat lon = 0) ∧
    (∀ lat lon : ℝ,
      LocationVerification.calculate_distance lat lon (-lat) (lon + 180) =
        Real.pi * 6371000) := by
  constructor
  · exact calculate_distance_self
  · intro lat lon
    simp only [LocationVerification.calculate_distance, LocationVerification.radiansOf]
    rw [show (-lat * Real.pi / 180 - lat * Real.pi / 180) / 2 =
      -(lat * Real.pi / 180) from by ring]
    rw [show ((lon + 180) * Real.pi / 180 - lon * Real.pi / 180) / 2 =
      Real.pi / 2 from by ring]
    rw [show -lat * Real.pi / 180 = -(lat * Real.pi / 180) from by ring]
    rw [Real.sin_neg, Real.cos_neg, Real.sin_pi_div_two]
    rw [show ∀ s c : ℝ, (-s) ^ 2 + c * c * 1 ^ 2 = s ^ 2 + c ^ 2 from by intro s c; ring]
    rw [Real.sin_sq_add_cos_sq, Real.sqrt_one, Real.arcsin_one]
    ring

/-- C7 fails on the code: `FraudDetector._calculate_distance` is the
rectangular approximation (|dlat| + |dlon|) * 111000, not the haversine
formula — at (0,0) and (0,90) it returns 9990000 m while the haversine
distance is 6371000 * pi / 2 m. -/
theorem C7_counterexample :
    FraudDetector.calculate_distance_fd ⟨0, 0, 0⟩ ⟨0, 90, 10⟩ ≠
      LocationVerification.calculate_distance 0 0 0 90 := by
  have hfd : FraudDetector.calculate_distance_fd ⟨0, 0, 0⟩ ⟨0, 90, 10⟩ = 9990000 := by
    simp only [FraudDetector.calculate_distance_fd]
    rw [sub_self, abs_zero, show (0 : ℝ) - 90 = -90 from by ring, abs_neg,
      abs_of_nonneg (by norm_num : (0 : ℝ) ≤ 90)]
    norm_num
  rw [hfd, calculate_distance_quarter]
  intro heq
  nlinarith [Real.pi_gt_d6]

/-- Movement history for the amended C7: a 0.001-degree latitude step in
2 seconds, then standing still. -/
noncomputable def c7hist : List TimedLoc :=
  [⟨0, 0, 0⟩, ⟨1 / 1000, 0, 2⟩, ⟨1 / 1000, 0, 100⟩]

/-- C7 (amended): the fraud detector's impossible-movement check uses the
rectangular distance with a 500 km/h cutoff while the location
verification service's movement check uses the haversine distance with a
50 m/s cutoff; the checks are inequivalent — this history is penalized by
`verify_movement_patterns` (confidence halved to 0.5, below the 0.6
natural-movement bar) yet not flagged by `_check_impossible_movements`. -/
theorem C7_thresholds_inequivalent :
    ¬ (LocationVerification.verify_movement_patterns c7hist).natural_movement ∧
    (LocationVerification.verify_movement_patterns c7hist).confidence = 1 * 0.5 ∧
    ¬ FraudDetector.check_impossible_movements c7hist := by
  have hzip : c7hist.zip c7hist.tail =
      [(⟨0, 0, 0⟩, ⟨1 / 1000, 0, 2⟩), (⟨1 / 1000, 0, 2⟩, ⟨1 / 1000, 0, 100⟩)] := rfl
  have hpair1 : LocationVerification.teleport_pair (⟨0, 0, 0⟩, ⟨1 / 1000, 0, 2⟩) := by
    simp only [LocationVerification.teleport_pair]
    refine ⟨by norm_num, ?_⟩
    show (50 : ℝ) < LocationVerification.calculate_distance 0 0 (1 / 1000) 0 / (2 - 0)
    rw [calculate_distance_small]
    nlinarith [Real.pi_gt_d6]
  have hpair2 : ¬ LocationVerification.teleport_pair
      (⟨1 / 1000, 0, 2⟩, ⟨1 / 1000, 0, 100⟩) := by
    simp only [LocationVerification.teleport_pair]
    rintro ⟨-, hsp⟩
    rw [show ((⟨1 / 1000, 0, 100⟩ : TimedLoc).timestamp -
      (⟨1 / 1000, 0, 2⟩ : TimedLoc).timestamp) = 98 from by norm_num] at hsp
    rw [show LocationVerification.calculate_distance (1 / 1000) 0 (1 / 1000) 0 = 0 from
      calculate_distance_self (1 / 1000) 0] at hsp
    norm_num at hsp
  have hsl : ¬ LocationVerification.check_straight_line_movement c7hist := by
    intro h
    have h4 := h.1
    simp [c7hist] at h4
  have hrep : ¬ LocationVerification.check_repetitive_patterns c7hist := by
    intro h
    have h6 := h.1
    simp [c7hist] at h6
  have hvm : LocationVerification.verify_movement_patterns c7hist =
      ⟨(0.6 : ℝ) ≤ 1 * 0.5, 1 * 0.5⟩ := by
    simp only [LocationVerification.verify_movement_patterns]
    rw [if_neg (by simp [c7hist])]
    rw [hzip]
    simp only [LocationVerification.speedPenalty, if_pos hpair1, if_neg hpair2]
    rw [if_neg hsl, if_neg hrep]
  have hfd1 : FraudDetector.calculate_distance_fd ⟨0, 0, 0⟩ ⟨1 / 1000, 0, 2⟩ = 111 := by
    simp only [FraudDetector.calculate_distance_fd]
    rw [show (⟨0, 0, 0⟩ : TimedLoc).lat - (⟨1 / 1000, 0, 2⟩ : TimedLoc).lat =
      -(1 / 1000) from by norm_num, abs_neg, sub_self, abs_zero,
      abs_of_nonneg (by norm_num : (0 : ℝ) ≤ 1 / 1000)]
    norm_num
  have hfd2 : FraudDetector.calculate_distance_fd ⟨1 / 1000, 0, 2⟩ ⟨1 / 1000, 0, 100⟩ = 0 := by
    simp [FraudDetector.calculate_distance_fd]
  refine ⟨?_, ?_, ?_⟩
  · rw [hvm]
    norm_num
  · rw [hvm]
  · rintro ⟨pr, hmem, hpos, hsp⟩
    rw [hzip] at hmem
    rcases List.mem_cons.1 hmem with h | h
    · rw [h] at hsp
      rw [hfd1] at hsp
      norm_num at hsp
    · rcases List.mem_cons.1 h with h2 | h2
      · rw [h2] at hsp
        rw [hfd2] at hsp
        norm_num at hsp
      · exact absurd h2 (List.not_mem_nil pr)

end AntiCheat
